import Mathlib

/-!
Verification of the zFetcher request lifecycle engine (src/zfetcher.ts,
src/util.ts) against its specification.  JavaScript values that flow through
the engine (request bodies, decoded response bodies, hook results) are
modelled by the inductive type `JVal`; JavaScript strings are Lean strings,
and the string operations the source uses are modelled over character lists
so that every definition evaluates by kernel reduction.  Arrays and plain
objects carry their externally-produced string images (the `String(v)` form
of each array element and the canonical JSON form), since the engine only
ever consumes those images; serialization itself is an external collaborator.
-/

namespace ZF

/-- Model of a JavaScript runtime value as seen by the fetcher engine. -/
inductive JVal where
  | undef
  | jnull
  | bool (b : Bool)
  | num (n : Int)
  | nan
  | str (s : String)
  | obj (json : String)
  | arr (elemStrs : List String) (json : String)
  | formData
  | blob
  | urlSearchParams
  | readableStream
deriving Repr, DecidableEq

/-- JavaScript truthiness of a value. -/
def jsTruthy : JVal → Bool
  | .undef => false
  | .jnull => false
  | .bool b => b
  | .num n => n != 0
  | .nan => false
  | .str s => s != ""
  | _ => true

/-- The JavaScript `String(v)` conversion. -/
def jsToString : JVal → String
  | .undef => "undefined"
  | .jnull => "null"
  | .bool true => "true"
  | .bool false => "false"
  | .num n => toString n
  | .nan => "NaN"
  | .str s => s
  | .obj _ => "[object Object]"
  | .arr es _ => String.intercalate "," es
  | .formData => "[object FormData]"
  | .blob => "[object Blob]"
  | .urlSearchParams => ""
  | .readableStream => "[object ReadableStream]"

/-- The JavaScript `JSON.stringify(v)` conversion; objects and arrays carry
their canonical JSON image, string escaping is abstracted. -/
def jsonStringify : JVal → String
  | .undef => "undefined"
  | .jnull => "null"
  | .bool true => "true"
  | .bool false => "false"
  | .num n => toString n
  | .nan => "null"
  | .str s => "\"" ++ s ++ "\""
  | .obj j => j
  | .arr _ j => j
  | _ => ""

/-- Values for which the JavaScript `typeof` operator yields "object",
arrays excluded (the source tests `Array.isArray` first). -/
def jsTypeofIsObject : JVal → Bool
  | .jnull => true
  | .obj _ => true
  | .formData => true
  | .blob => true
  | .urlSearchParams => true
  | .readableStream => true
  | _ => false

/-- JavaScript string lowercasing, on the character list. -/
def strToLower (s : String) : String := ⟨s.data.map Char.toLower⟩

/-- JavaScript `s.endsWith(pat)`. -/
def strEndsWith (s pat : String) : Bool := pat.data.reverse.isPrefixOf s.data.reverse

/-- JavaScript `s.startsWith(pat)`. -/
def strStartsWith (s pat : String) : Bool := pat.data.isPrefixOf s.data

/-- JavaScript `s.slice(0, -1)`: drop the last character. -/
def strDropLast (s : String) : String := ⟨s.data.dropLast⟩

/-- Whether `pat` occurs inside the character list. -/
def listHasSub (pat : List Char) : List Char → Bool
  | [] => pat.isEmpty
  | c :: rest => pat.isPrefixOf (c :: rest) || listHasSub pat rest

/-- JavaScript `s.includes(pat)`. -/
def strIncludes (s pat : String) : Bool := listHasSub pat.data s.data

/-- A JavaScript plain object used as a string-keyed mapping, with insertion
order retained. -/
abbrev Record (α : Type) := List (String × α)

/-- Property lookup in a record. -/
def lookupRecord (r : Record α) (k : String) : Option α :=
  (r.find? (fun p => p.1 == k)).map (·.2)

/-- JavaScript object spread of two records, the second overriding the
first on shared keys. -/
def mergeRecords (a b : Record α) : Record α :=
  a.filter (fun p => (lookupRecord b p.1).isNone) ++ b

/-- Case-insensitive header lookup, as the Fetch `Headers.get` performs;
an absent header yields `none` (JavaScript `null`). -/
def headersGet (hs : Record String) (name : String) : Option String :=
  (hs.find? (fun p => strToLower p.1 == strToLower name)).map (·.2)

/-- Model of a Fetch API response: its status, its headers, and the values
that its `json()` and `text()` body readers produce. -/
structure Response where
  status : Nat
  headers : Record String
  jsonVal : JVal
  textVal : String
deriving Repr, DecidableEq

/-- The Fetch API `response.ok` accessor: status in the range 200-299. -/
def Response.ok (r : Response) : Bool := 200 ≤ r.status && r.status ≤ 299

/-- Result of one lifecycle hook invocation: it either returns a value
(`ret none` is a JavaScript hook returning `undefined`) or throws. -/
inductive HookRes where
  | ret (v : Option JVal)
  | thrown (e : JVal)

/-- A zero-argument hook (onPrep, onSettled). -/
abbrev Hook0 := Unit → HookRes

/-- A hook taking the response and decoded body (onSuccess, onNotOk). -/
abbrev Hook2 := Response → JVal → HookRes

/-- A hook taking the raw thrown failure (onError). -/
abbrev Hook1 := JVal → HookRes

/-- Result of the transport (`fetch`) or of a mock supplier: a response, or
a thrown failure. -/
inductive DispatchRes where
  | resp (r : Response)
  | thrown (e : JVal)

/-- Instance-level configuration accepted by `createZFetcher`; `none` marks
an absent (undefined) field. -/
structure ZFetcherConfig where
  url : Option String := none
  headers : Option (Record String) := none
  queryParams : Option (Record JVal) := none
  fetchOptions : Option (Record JVal) := none
  normalizeUrl : Option Bool := none
  throwNotOk : Option Bool := none
  onPrep : Option Hook0 := none
  onSuccess : Option Hook2 := none
  onError : Option Hook1 := none
  onNotOk : Option Hook2 := none
  onSettled : Option Hook0 := none

/-- Call-level options accepted by `fetcher`; `none` marks an absent field,
and the disable flags are plain booleans (absent means false, matching
their use purely as truthiness tests in the source). -/
structure ZFetcherOptions where
  method : Option String := none
  headers : Option (Record String) := none
  queryParams : Option (Record JVal) := none
  body : JVal := .undef
  delay : Option Nat := none
  mockFn : Option (Unit → DispatchRes) := none
  fetchOptions : Option (Record JVal) := none
  url : Option String := none
  normalizeUrl : Option Bool := none
  throwNotOk : Option Bool := none
  protocol : Option String := none
  ip : Option String := none
  port : Option String := none
  disableDefaultHeaders : Bool := false
  disableDefaultQueryParams : Bool := false
  disableDefaultFetchOptions : Bool := false
  disableDefaultOnPrep : Bool := false
  disableDefaultOnSuccess : Bool := false
  disableDefaultOnNotOk : Bool := false
  disableDefaultOnError : Bool := false
  disableDefaultOnSettled : Bool := false
  onPrep : Option Hook0 := none
  onSuccess : Option Hook2 := none
  onNotOk : Option Hook2 := none
  onError : Option Hook1 := none
  onSettled : Option Hook0 := none

/-- The argument object handed to the transport: URL, method, merged
headers, the conditionally attached body field, and the trailing spread of
the merged fetch options (which can shadow the earlier fields). -/
structure FetchRequest where
  url : String
  method : String
  headers : Record String
  body : Option JVal := none
  extraOptions : Record JVal := []
deriving Repr, DecidableEq

/-- Whether the final request object carries a body property, either from
the conditional body spread or from the merged fetch options spread. -/
def FetchRequest.hasBodyField (req : FetchRequest) : Bool :=
  req.body.isSome || (lookupRecord req.extraOptions "body").isSome

/-- JavaScript truthiness of a possibly absent string. -/
def strTruthy : Option String → Bool
  | some s => s != ""
  | none => false

/-- JavaScript truthiness of a possibly absent boolean. -/
def optBoolTruthy : Option Bool → Bool
  | some b => b
  | none => false

/-- buildQueryString, zfetcher.ts lines 42-59: entries contributed by one
query parameter (undefined values skipped, arrays appended element-wise
via `String(v)`, other object-typed values via `JSON.stringify`, scalars
via `String(value)`). -/
def queryEntryPairs (k : String) (v : JVal) : List (String × String) :=
  if v = .undef then []
  else match v with
    | .arr es _ => es.map (fun s => (k, s))
    | v => if jsTypeofIsObject v then [(k, jsonStringify v)] else [(k, jsToString v)]

/-- buildQueryString, zfetcher.ts lines 42-59.  `URLSearchParams.toString`
is modelled as ampersand-joined `key=value` pairs; percent-encoding belongs
to the external platform collaborator and is abstracted as the identity. -/
def buildQueryString (query : Record JVal) : String :=
  let pairs := (query.map (fun p => queryEntryPairs p.1 p.2)).flatten
  let queryString := String.intercalate "&" (pairs.map (fun p => p.1 ++ "=" ++ p.2))
  if queryString != "" then "?" ++ queryString else ""

/-- buildUrl, zfetcher.ts lines 61-65 (also util.ts lines 4-8): strip one
trailing slash from the base, prepend a slash to the endpoint unless it
already starts with one (an undefined endpoint interpolates to the literal
text "undefined"), append `query || ""`. -/
def buildUrl (base : String) (endpoint : Option String) (query : Option String) : String :=
  let normalizedBase := if strEndsWith base "/" then strDropLast base else base
  let normalizedEndpoint :=
    match endpoint with
    | some e => if strStartsWith e "/" then e else "/" ++ e
    | none => "/undefined"
  normalizedBase ++ normalizedEndpoint ++ (match query with | some q => q | none => "")

/-- prepareRequestBody, util.ts lines 37-53: falsy bodies map to null;
FormData, Blob, URLSearchParams, ReadableStream and strings pass through;
everything else is JSON-serialized. -/
def prepareRequestBody (body : JVal) : JVal :=
  if !jsTruthy body then .jnull
  else match body with
    | .formData => body
    | .blob => body
    | .urlSearchParams => body
    | .readableStream => body
    | .str _ => body
    | b => .str (jsonStringify b)

/-- Body decoding, zfetcher.ts lines 179-187: status 204 or a
content-length header of exactly "0" yield null; otherwise a truthy
content-type whose lowercase form includes "json" selects `response.json()`
and every other case selects `response.text()`. -/
def decodeBody (r : Response) : JVal :=
  let contentLength := headersGet r.headers "content-length"
  if r.status == 204 || contentLength == some "0" then .jnull
  else
    match headersGet r.headers "content-type" with
    | some ct => if ct != "" && strIncludes (strToLower ct) "json" then r.jsonVal else .str r.textVal
    | none => .str r.textVal

/-- Resolution of the throwNotOk flag, zfetcher.ts line 118 together with
the destructuring default `throwNotOk = true` on line 76. -/
def resolveThrowNotOk (cfg : ZFetcherConfig) (o : ZFetcherOptions) : Bool :=
  match o.throwNotOk with
  | some b => b
  | none => cfg.throwNotOk.getD true

/-- Whether URL normalization is active, zfetcher.ts line 136: the
truthiness disjunction `normalizeUrl || defaultNormalizeUrl` (the config
destructuring on line 75 supplies no default for `normalizeUrl`). -/
def resolveNormalizeActive (cfg : ZFetcherConfig) (o : ZFetcherOptions) : Bool :=
  optBoolTruthy o.normalizeUrl || optBoolTruthy cfg.normalizeUrl

/-- The default fetch options supplied by the config destructuring,
zfetcher.ts lines 72-74. -/
def configDefaultFetchOptions : Record JVal := [("credentials", .str "include")]

/-- The per-call values computed by `fetcher` before the prep phase,
zfetcher.ts lines 118-159. -/
structure Resolved where
  shouldThrowNotOk : Bool
  mergedHeaders : Record String
  mergedFetchOptions : Record JVal
  mergedQueryParams : Record JVal
  queryString : String
  fullUrl : String
  method : String
  request : FetchRequest

/-- The configuration-resolution prefix of `fetcher`, zfetcher.ts lines
118-159: flag resolution, the three shallow merges, the query string, the
full URL (`url || defaultUrl + endpoint + queryString`, replaced by
`buildUrl(url || defaultUrl, endpoint, queryString)` when normalization is
active), and the argument object of the eventual `fetch` call (a body field
is attached only for a non-GET method with a truthy body). -/
def resolveCall (cfg : ZFetcherConfig) (endpoint : String) (o : ZFetcherOptions) : Resolved :=
  let defaultUrl := cfg.url.getD ""
  let method := o.method.getD "GET"
  let shouldThrowNotOk := resolveThrowNotOk cfg o
  let mergedHeaders :=
    mergeRecords (if o.disableDefaultHeaders then [] else cfg.headers.getD []) (o.headers.getD [])
  let mergedFetchOptions :=
    mergeRecords (if o.disableDefaultFetchOptions then [] else cfg.fetchOptions.getD configDefaultFetchOptions)
      (o.fetchOptions.getD [])
  let mergedQueryParams :=
    mergeRecords (if o.disableDefaultQueryParams then [] else cfg.queryParams.getD []) (o.queryParams.getD [])
  let queryString := buildQueryString mergedQueryParams
  let fullUrl :=
    if resolveNormalizeActive cfg o then
      buildUrl (if strTruthy o.url then o.url.getD "" else defaultUrl) (some endpoint) (some queryString)
    else if strTruthy o.url then o.url.getD "" else defaultUrl ++ endpoint ++ queryString
  let request : FetchRequest :=
    { url := fullUrl
      method := method
      headers := mergedHeaders
      body := if method != "GET" && jsTruthy o.body then some (prepareRequestBody o.body) else none
      extraOptions := mergedFetchOptions }
  { shouldThrowNotOk := shouldThrowNotOk
    mergedHeaders := mergedHeaders
    mergedFetchOptions := mergedFetchOptions
    mergedQueryParams := mergedQueryParams
    queryString := queryString
    fullUrl := fullUrl
    method := method
    request := request }

/-- Observable lifecycle events of one `fetcher` call: each hook invocation
is recorded together with the arguments it was actually passed, and the
dispatch records the request object handed to the transport (or that the
mock supplier was used). -/
inductive Ev where
  | defPrep
  | callPrep
  | fetchDispatch (req : FetchRequest)
  | mockCall
  | defSuccess (r : Response) (body : JVal)
  | callSuccess (r : Response) (body : JVal)
  | defNotOk (r : Response) (body : JVal)
  | callNotOk (r : Response) (body : JVal)
  | callError (e : JVal)
  | defError (e : JVal)
  | defSettled
  | callSettled
deriving Repr, DecidableEq

/-- How one `fetcher` call terminates: a normal return, a thrown
NetworkError wrapping the original dispatch failure, a thrown ResponseError
carrying the response and the processed body, or an uncaught throw escaping
from a lifecycle hook. -/
inductive FetchOutcome where
  | ok (v : JVal)
  | networkError (original : JVal)
  | responseError (r : Response) (body : JVal)
  | hookThrow (e : JVal)
deriving Repr, DecidableEq

/-- Whether the outcome is an uncaught hook throw. -/
def FetchOutcome.isHookThrow : FetchOutcome → Bool
  | .hookThrow _ => true
  | _ => false

/-- Partial progress of a hook sequence: the events emitted so far and
either the produced value or the value thrown by a hook. -/
inductive Step (α : Type) where
  | next (evs : List Ev) (a : α)
  | thrown (evs : List Ev) (e : JVal)

/-- The events a step emitted. -/
def Step.events : Step α → List Ev
  | .next evs _ => evs
  | .thrown evs _ => evs

/-- Sequencing of steps: a throw in the first step skips the second. -/
def stepBind (s : Step α) (k : α → Step β) : Step β :=
  match s with
  | .thrown evs e => .thrown evs e
  | .next evs a =>
    match k a with
    | .next evs2 b => .next (evs ++ evs2) b
    | .thrown evs2 e => .thrown (evs ++ evs2) e

/-- Conditional invocation of a zero-argument hook (the
`if (hook && !disabled) await hook()` pattern). -/
def runHook0 (h : Option Hook0) (enabled : Bool) (ev : Ev) : Step Unit :=
  match h, enabled with
  | some f, true =>
    (match f () with
     | .thrown e => .thrown [ev] e
     | .ret _ => .next [ev] ())
  | _, _ => .next [] ()

/-- The prep phase, zfetcher.ts lines 143-144: default prep hook unless
disabled, then the call-level prep hook; a throw propagates uncaught. -/
def runPrepPhase (cfg : ZFetcherConfig) (o : ZFetcherOptions) : Step Unit :=
  stepBind (runHook0 cfg.onPrep (!o.disableDefaultOnPrep) .defPrep)
    (fun _ => runHook0 o.onPrep true .callPrep)

/-- The settled phase, zfetcher.ts lines 171-172 and 218-219: default
settled hook unless disabled, then the call-level settled hook. -/
def runSettledPhase (cfg : ZFetcherConfig) (o : ZFetcherOptions) : Step Unit :=
  stepBind (runHook0 cfg.onSettled (!o.disableDefaultOnSettled) .defSettled)
    (fun _ => runHook0 o.onSettled true .callSettled)

/-- Conditional invocation of a success or not-ok hook: it receives the
response and `beforeHandle` (the body as decoded, captured on zfetcher.ts
line 189 before any hook runs), and a defined return value replaces the
propagated body. -/
def runBodyHook (h : Option Hook2) (enabled : Bool) (r : Response) (beforeHandle : JVal)
    (ev : Ev) (current : JVal) : Step JVal :=
  match h, enabled with
  | some f, true =>
    (match f r beforeHandle with
     | .thrown e => .thrown [ev] e
     | .ret none => .next [ev] current
     | .ret (some v) => .next [ev] v)
  | _, _ => .next [] current

/-- The outcome-classification hook phase, zfetcher.ts lines 189-216:
on an ok response the default then the call-level success hook, otherwise
the default then the call-level not-ok hook; both invocations of a branch
receive `beforeHandle`, and each defined return value replaces the
propagated body (so the call-level return wins when both are defined). -/
def runOutcomePhase (cfg : ZFetcherConfig) (o : ZFetcherOptions) (r : Response)
    (beforeHandle : JVal) : Step JVal :=
  if r.ok then
    stepBind (runBodyHook cfg.onSuccess (!o.disableDefaultOnSuccess) r beforeHandle
        (.defSuccess r beforeHandle) beforeHandle)
      (fun b1 => runBodyHook o.onSuccess true r beforeHandle (.callSuccess r beforeHandle) b1)
  else
    stepBind (runBodyHook cfg.onNotOk (!o.disableDefaultOnNotOk) r beforeHandle
        (.defNotOk r beforeHandle) beforeHandle)
      (fun b1 => runBodyHook o.onNotOk true r beforeHandle (.callNotOk r beforeHandle) b1)

/-- Conditional invocation of an error hook: it receives the raw dispatch
failure; its returned value (possibly undefined) is recorded. An absent or
disabled hook leaves its return variable undefined. -/
def runErrorHook (h : Option Hook1) (enabled : Bool) (e : JVal) (ev : Ev) : Step (Option JVal) :=
  match h, enabled with
  | some f, true =>
    (match f e with
     | .thrown e2 => .thrown [ev] e2
     | .ret v => .next [ev] v)
  | _, _ => .next [] none

/-- Dispatch, zfetcher.ts lines 148-160: the mock supplier replaces the
transport when provided. -/
def runDispatch (o : ZFetcherOptions) (transport : FetchRequest → DispatchRes)
    (req : FetchRequest) : DispatchRes :=
  match o.mockFn with
  | some m => m ()
  | none => transport req

/-- The trace marker of the dispatch: the request handed to `fetch`, or the
mock invocation. -/
def dispatchEvOf (o : ZFetcherOptions) (req : FetchRequest) : Ev :=
  match o.mockFn with
  | some _ => .mockCall
  | none => .fetchDispatch req

/-- The request lifecycle engine, zfetcher.ts lines 84-226, parameterized
by the transport (the global `fetch`).  It resolves the configuration,
runs the prep hooks (whose throws propagate, skipping everything else),
dispatches via the mock supplier or the transport, and either runs the
error-branch hooks (call-level first, then default) followed by the settled
hooks, or decodes the body, runs the outcome-branch hooks and the settled
hooks and finally throws a ResponseError or returns the processed body.
The artificial delay has no observable effect in this model and is
dropped.  The result pairs the outcome with the trace of emitted events. -/
def fetcher (transport : FetchRequest → DispatchRes) (cfg : ZFetcherConfig)
    (endpoint : String) (o : ZFetcherOptions) : FetchOutcome × List Ev :=
  let rs := resolveCall cfg endpoint o
  match runPrepPhase cfg o with
  | .thrown evs e => (.hookThrow e, evs)
  | .next evsP _ =>
    let dEv := dispatchEvOf o rs.request
    match runDispatch o transport rs.request with
    | .thrown err =>
      match runErrorHook o.onError true err (.callError err) with
      | .thrown evs e => (.hookThrow e, evsP ++ [dEv] ++ evs)
      | .next evsE1 onErrorRet =>
        match runErrorHook cfg.onError (!o.disableDefaultOnError) err (.defError err) with
        | .thrown evs e => (.hookThrow e, evsP ++ [dEv] ++ evsE1 ++ evs)
        | .next evsE2 defaultOnErrorRet =>
          match runSettledPhase cfg o with
          | .thrown evs e => (.hookThrow e, evsP ++ [dEv] ++ evsE1 ++ evsE2 ++ evs)
          | .next evsS _ =>
            let evs := evsP ++ [dEv] ++ evsE1 ++ evsE2 ++ evsS
            match onErrorRet with
            | some v => (.ok v, evs)
            | none =>
              match defaultOnErrorRet with
              | some v => (.ok v, evs)
              | none => (.networkError err, evs)
    | .resp r =>
      let processed := decodeBody r
      match runOutcomePhase cfg o r processed with
      | .thrown evs e => (.hookThrow e, evsP ++ [dEv] ++ evs)
      | .next evsO finalBody =>
        match runSettledPhase cfg o with
        | .thrown evs e => (.hookThrow e, evsP ++ [dEv] ++ evsO ++ evs)
        | .next evsS _ =>
          let evs := evsP ++ [dEv] ++ evsO ++ evsS
          if !r.ok && rs.shouldThrowNotOk then (.responseError r finalBody, evs)
          else (.ok finalBody, evs)

/-! Specification-side definitions, written from the specification's own
words, used to compare the source-derived definitions against the spec. -/

/-- Specification-side: the base with exactly one trailing slash stripped
when one is present. -/
def specStripTrailingSlash (base : String) : String :=
  if strEndsWith base "/" then strDropLast base else base

/-- Specification-side: the endpoint with a leading slash ensured (one is
added exactly when none is present). -/
def specEnsureLeadingSlash (e : String) : String :=
  if strStartsWith e "/" then e else "/" ++ e

/-- C8: for every base, endpoint and query string, the normalized URL is
the base with one trailing slash stripped (if present), then the endpoint
with a leading slash ensured, then the query string; this also holds for
the URL the engine dispatches whenever normalization is active, and
Scenario A (base "https://api.example.com/", endpoint "/users") resolves to
"https://api.example.com/users". -/
theorem C8_normalized_url_shape :
    (∀ base ep q, buildUrl base (some ep) (some q) =
      specStripTrailingSlash base ++ specEnsureLeadingSlash ep ++ q)
    ∧ (∀ cfg o ep, resolveNormalizeActive cfg o = true →
        (resolveCall cfg ep o).request.url =
          specStripTrailingSlash (if strTruthy o.url then o.url.getD "" else cfg.url.getD "")
            ++ specEnsureLeadingSlash ep ++ (resolveCall cfg ep o).queryString)
    ∧ buildUrl "https://api.example.com/" (some "/users") (some "") = "https://api.example.com/users" := by
  refine ⟨fun base ep q => rfl, fun cfg o ep hn => ?_, rfl⟩
  simp [resolveCall, hn, buildUrl, specStripTrailingSlash, specEnsureLeadingSlash]

/-- Witness for C8: the second component applied to Scenario A's
configuration. -/
theorem C8_normalized_url_shape_witness :
    (resolveCall { url := some "https://api.example.com/", normalizeUrl := some true } "/users"
      ({} : ZFetcherOptions)).request.url = "https://api.example.com/users" :=
  C8_normalized_url_shape.2.1 _ _ _ rfl

/-- C6: a response with status 204 or a content-length header of exactly
"0" decodes to null regardless of the status code and of the content-type
header; otherwise a present, nonempty content-type whose lowercase form
contains "json" selects the structured `json()` value, and every other
case (a missing, empty or non-json content-type) selects the raw `text()`
value. -/
theorem C6_decode_rules (r : Response) :
    ((r.status = 204 ∨ headersGet r.headers "content-length" = some "0") → decodeBody r = .jnull)
    ∧ (r.status ≠ 204 → headersGet r.headers "content-length" ≠ some "0" →
        ∀ ct, headersGet r.headers "content-type" = some ct → ct ≠ "" →
          strIncludes (strToLower ct) "json" = true → decodeBody r = r.jsonVal)
    ∧ (r.status ≠ 204 → headersGet r.headers "content-length" ≠ some "0" →
        (¬ ∃ ct, headersGet r.headers "content-type" = some ct ∧ ct ≠ "" ∧
            strIncludes (strToLower ct) "json" = true) →
        decodeBody r = .str r.textVal) := by
  refine ⟨?_, ?_, ?_⟩
  · rintro (h | h) <;> simp [decodeBody, h]
  · intro h1 h2 ct hct hne hj
    simp [decodeBody, h1, h2, hct, hne, hj]
  · intro h1 h2 hno
    rcases hct : headersGet r.headers "content-type" with _ | ct
    · simp [decodeBody, h1, h2, hct]
    · have : ¬ (ct ≠ "" ∧ strIncludes (strToLower ct) "json" = true) := by
        intro ⟨ha, hb⟩
        exact hno ⟨ct, hct, ha, hb⟩
      rcases Decidable.em (ct = "") with he | he
      · simp [decodeBody, h1, h2, hct, he]
      · have hj : strIncludes (strToLower ct) "json" = false := by
          rcases Bool.eq_false_or_eq_true (strIncludes (strToLower ct) "json") with h | h
          · exact absurd ⟨he, h⟩ this
          · exact h
        simp [decodeBody, h1, h2, hct, he, hj]

/-- A status-500 response carrying a content-length of "0" and a json
content-type, for the C6 witness (Scenario E). -/
def scenarioEResponse : Response :=
  { status := 500
    headers := [("content-length", "0"), ("content-type", "application/json")]
    jsonVal := .obj "x:1"
    textVal := "t" }

/-- Witness for C6: Scenario E, a status-500 response with content-length
"0" and a json content-type still decodes to null. -/
theorem C6_decode_rules_witness : decodeBody scenarioEResponse = JVal.jnull :=
  (C6_decode_rules scenarioEResponse).1 (Or.inr rfl)

/-- C1: how the code really resolves the two scalar flags.  throwNotOk
behaves exactly as the claim states (call-level value wins, including an
explicit false, else the instance default, else true).  normalizeUrl does
not: line 136 computes the truthiness disjunction `normalizeUrl ||
defaultNormalizeUrl`, so a call-level false cannot disable normalization
when the instance default is true, and when neither side provides the flag
normalization is inactive (the destructuring on line 75 supplies no
default), contradicting the claim and the documented default. -/
theorem C1_flag_resolution_behavior :
    resolveNormalizeActive { normalizeUrl := some true } { normalizeUrl := some false } = true
    ∧ resolveNormalizeActive {} {} = false
    ∧ resolveThrowNotOk { throwNotOk := some true } { throwNotOk := some false } = false
    ∧ resolveThrowNotOk {} {} = true
    ∧ (∀ cfg o, resolveThrowNotOk cfg o = o.throwNotOk.getD (cfg.throwNotOk.getD true)) := by
  refine ⟨rfl, rfl, rfl, rfl, fun cfg o => ?_⟩
  cases h : o.throwNotOk <;> simp [resolveThrowNotOk, h]

/-- C7: counterexample.  With normalization inactive and a truthy
call-level url, the dispatched URL is the call-level url alone: endpoint
and query string are dropped, because line 135 parses as
`url || (defaultUrl + endpoint + queryString)`. -/
theorem C7_literal_url_counterexample :
    resolveNormalizeActive { url := some "https://d.example" } { url := some "https://call.example" } = false
    ∧ (resolveCall { url := some "https://d.example" } "/e"
        { url := some "https://call.example" }).request.url = "https://call.example"
    ∧ (resolveCall { url := some "https://d.example" } "/e"
        { url := some "https://call.example" }).queryString = ""
    ∧ "https://call.example" ≠ "https://call.example" ++ "/e" ++ "" := by
  refine ⟨rfl, rfl, rfl, by decide⟩

/-- C7 as amended: with URL normalization inactive, a truthy call-level
url becomes the dispatched URL by itself, and otherwise the dispatched URL
is the literal concatenation of the instance default url, the endpoint and
the query string, with no slash correction. -/
theorem C7_literal_url_amended (cfg : ZFetcherConfig) (o : ZFetcherOptions) (ep : String)
    (hn : resolveNormalizeActive cfg o = false) :
    (strTruthy o.url = true → (resolveCall cfg ep o).request.url = o.url.getD "")
    ∧ (strTruthy o.url = false →
        (resolveCall cfg ep o).request.url = cfg.url.getD "" ++ ep ++ (resolveCall cfg ep o).queryString) := by
  constructor <;> intro h <;> simp [resolveCall, hn, h]

/-- Witness for C7's amended statement: default url with endpoint and no
call-level url concatenates literally. -/
theorem C7_literal_url_amended_witness :
    (resolveCall { url := some "https://d.example" } "/e" ({} : ZFetcherOptions)).request.url =
      "https://d.example/e" :=
  (C7_literal_url_amended { url := some "https://d.example" } {} "/e" rfl).2 rfl

/-- C10: JavaScript falsiness of a body is exactly membership in the
claim's list (undefined, null, 0, false, NaN, empty string);
prepareRequestBody maps every falsy body to null; and a call whose
resolved method is not GET and whose body option is falsy attaches no body
field to the dispatched request (given that the merged fetch options spread
no body key of their own). -/
theorem C10_falsy_body_not_attached :
    (∀ b : JVal, jsTruthy b = false ↔
      (b = .undef ∨ b = .jnull ∨ b = .num 0 ∨ b = .bool false ∨ b = .nan ∨ b = .str ""))
    ∧ (∀ b, jsTruthy b = false → prepareRequestBody b = .jnull)
    ∧ (∀ cfg ep o, (resolveCall cfg ep o).method ≠ "GET" → jsTruthy o.body = false →
        (resolveCall cfg ep o).request.body = none
        ∧ (lookupRecord (resolveCall cfg ep o).mergedFetchOptions "body" = none →
            (resolveCall cfg ep o).request.hasBodyField = false)) := by
  refine ⟨?_, ?_, ?_⟩
  · intro b
    cases b <;> simp [jsTruthy]
  · intro b hb
    simp [prepareRequestBody, hb]
  · intro cfg ep o hm hb
    constructor
    · simp [resolveCall, hb]
    · intro hlk
      simp [resolveCall, FetchRequest.hasBodyField, hb]
      simpa [resolveCall] using hlk

/-- Witness for C10: a POST with body 0 sends no request body, and
prepareRequestBody maps 0 to null. -/
theorem C10_falsy_body_not_attached_witness :
    prepareRequestBody (JVal.num 0) = JVal.jnull
    ∧ (resolveCall {} "" { method := some "POST", body := .num 0 }).request.hasBodyField = false :=
  ⟨C10_falsy_body_not_attached.2.1 (JVal.num 0) rfl,
   (C10_falsy_body_not_attached.2.2 {} "" { method := some "POST", body := .num 0 }
      (by decide) rfl).2 rfl⟩

/-! Shared lemmas about the hook phases, used by several claims below. -/

/-- On an ok response with both success hooks installed and the default one
enabled, the outcome phase invokes the default hook and then the call-level
hook, passes both the originally decoded body, and propagates the
call-level return over the default return over the decoded body. -/
theorem runOutcomePhase_ok_eq (cfg : ZFetcherConfig) (o : ZFetcherOptions) (r : Response) (b : JVal)
    (f g : Hook2) (fv gv : Option JVal)
    (hdf : cfg.onSuccess = some f) (hdis : o.disableDefaultOnSuccess = false)
    (hcf : o.onSuccess = some g)
    (hf : f r b = .ret fv) (hg : g r b = .ret gv) (hok : r.ok = true) :
    runOutcomePhase cfg o r b =
      .next [.defSuccess r b, .callSuccess r b] (gv.getD (fv.getD b)) := by
  rcases fv with _ | v1 <;> rcases gv with _ | v2 <;>
    simp [runOutcomePhase, runBodyHook, stepBind, hdf, hdis, hcf, hf, hg, hok]

/-- The not-ok counterpart of `runOutcomePhase_ok_eq`. -/
theorem runOutcomePhase_notok_eq (cfg : ZFetcherConfig) (o : ZFetcherOptions) (r : Response) (b : JVal)
    (p q : Hook2) (pv qv : Option JVal)
    (hdp : cfg.onNotOk = some p) (hdis : o.disableDefaultOnNotOk = false)
    (hcq : o.onNotOk = some q)
    (hp : p r b = .ret pv) (hq : q r b = .ret qv) (hok : r.ok = false) :
    runOutcomePhase cfg o r b =
      .next [.defNotOk r b, .callNotOk r b] (qv.getD (pv.getD b)) := by
  rcases pv with _ | v1 <;> rcases qv with _ | v2 <;>
    simp [runOutcomePhase, runBodyHook, stepBind, hdp, hdis, hcq, hp, hq, hok]

/-- The response used by the C3 counterexample: ok, plain-text body
"orig". -/
def respC3 : Response := { status := 200, headers := [], jsonVal := .jnull, textVal := "orig" }

/-- Instance defaults for the C3 counterexample: a default success hook
returning the replacement "fromDefault". -/
def cfgC3 : ZFetcherConfig := { onSuccess := some (fun _ _ => .ret (some (.str "fromDefault"))) }

/-- Call options for the C3 counterexample: a call-level success hook
returning undefined. -/
def optC3 : ZFetcherOptions := { onSuccess := some (fun _ _ => .ret none) }

/-- The bodies that the call-level success hook was actually passed during
a call, read off the trace. -/
def callSuccessBodies (evs : List Ev) : List JVal :=
  evs.filterMap (fun e => match e with | .callSuccess _ b => some b | _ => none)

/-- C3: counterexample.  The default success hook returns the replacement
"fromDefault" (which does become the final result), yet the call-level
success hook is passed the originally decoded body "orig", not the
replacement: zfetcher.ts line 198 passes `beforeHandle`, captured on line
189 before any hook runs. -/
theorem C3_counterexample :
    callSuccessBodies (fetcher (fun _ => .resp respC3) cfgC3 "" optC3).2 = [JVal.str "orig"]
    ∧ (fetcher (fun _ => .resp respC3) cfgC3 "" optC3).1 = .ok (.str "fromDefault")
    ∧ JVal.str "orig" ≠ JVal.str "fromDefault" :=
  ⟨rfl, rfl, by decide⟩

/-- C3 as amended: on the Success branch (and symmetrically the NotOk
branch) the default hook runs first (unless disabled) and then the
call-level hook, but each invocation receives the response together with
the originally decoded body — not the possibly already-replaced one; a
non-undefined return value replaces the propagated body, so when both
hooks return values the call-level return is the final body. -/
theorem C3_branch_hook_arguments (cfg : ZFetcherConfig) (o : ZFetcherOptions) (r : Response) (b : JVal)
    (f g p q : Hook2) (fv gv pv qv : Option JVal)
    (hdf : cfg.onSuccess = some f) (hdis : o.disableDefaultOnSuccess = false)
    (hcf : o.onSuccess = some g)
    (hf : f r b = .ret fv) (hg : g r b = .ret gv)
    (hdp : cfg.onNotOk = some p) (hdisn : o.disableDefaultOnNotOk = false)
    (hcq : o.onNotOk = some q)
    (hp : p r b = .ret pv) (hq : q r b = .ret qv) :
    (r.ok = true → runOutcomePhase cfg o r b =
      .next [.defSuccess r b, .callSuccess r b] (gv.getD (fv.getD b)))
    ∧ (r.ok = false → runOutcomePhase cfg o r b =
      .next [.defNotOk r b, .callNotOk r b] (qv.getD (pv.getD b))) :=
  ⟨fun hok => runOutcomePhase_ok_eq cfg o r b f g fv gv hdf hdis hcf hf hg hok,
   fun hok => runOutcomePhase_notok_eq cfg o r b p q pv qv hdp hdisn hcq hp hq hok⟩

/-- Instance defaults for the C3 witness: both branch hooks installed and
returning replacements. -/
def cfgC3w : ZFetcherConfig :=
  { onSuccess := some (fun _ _ => .ret (some (.str "def")))
    onNotOk := some (fun _ _ => .ret (some (.str "defN"))) }

/-- Call options for the C3 witness: both branch hooks installed and
returning replacements. -/
def optC3w : ZFetcherOptions :=
  { onSuccess := some (fun _ _ => .ret (some (.str "call")))
    onNotOk := some (fun _ _ => .ret (some (.str "callN"))) }

/-- Witness for C3's amended statement at a concrete ok response. -/
theorem C3_branch_hook_arguments_witness :
    runOutcomePhase cfgC3w optC3w respC3 (.str "d") =
      .next [.defSuccess respC3 (.str "d"), .callSuccess respC3 (.str "d")] (.str "call") :=
  (C3_branch_hook_arguments cfgC3w optC3w respC3 (.str "d") _ _ _ _ _ _ _ _
    rfl rfl rfl rfl rfl rfl rfl rfl rfl rfl).1 rfl

/-- C9: when the dispatch yields an ok response and both the default and
the call-level success hooks return non-undefined replacement values (and
no prep, success or settled hook throws), the call returns the call-level
hook's value. -/
theorem C9_call_level_success_wins (transport : FetchRequest → DispatchRes)
    (cfg : ZFetcherConfig) (ep : String) (o : ZFetcherOptions) (r : Response)
    (f g : Hook2) (dv cv : JVal) (evsP evsS : List Ev)
    (hm : o.mockFn = none)
    (ht : transport (resolveCall cfg ep o).request = .resp r)
    (hprep : runPrepPhase cfg o = .next evsP ())
    (hok : r.ok = true)
    (hdf : cfg.onSuccess = some f) (hdis : o.disableDefaultOnSuccess = false)
    (hcf : o.onSuccess = some g)
    (hf : f r (decodeBody r) = .ret (some dv)) (hg : g r (decodeBody r) = .ret (some cv))
    (hst : runSettledPhase cfg o = .next evsS ()) :
    (fetcher transport cfg ep o).1 = .ok cv := by
  have hoc := runOutcomePhase_ok_eq cfg o r (decodeBody r) f g (some dv) (some cv)
    hdf hdis hcf hf hg hok
  simp [fetcher, runDispatch, dispatchEvOf, hm, ht, hprep, hoc, hst, hok]

/-- Witness for C9: both success hooks return values; the call-level value
"call" is the result. -/
theorem C9_call_level_success_wins_witness :
    (fetcher (fun _ => .resp respC3) cfgC3w "" optC3w).1 = .ok (.str "call") :=
  C9_call_level_success_wins (fun _ => .resp respC3) cfgC3w "" optC3w respC3
    _ _ (.str "def") (.str "call") [] [] rfl rfl rfl rfl rfl rfl rfl rfl rfl rfl

/-- C5: once the outcome-branch hooks and then the settled hooks have run
without throwing, the call throws a ResponseError carrying the response
and the possibly hook-replaced body exactly when the response was not ok
and the resolved throwNotOk flag is true, and otherwise returns the
possibly hook-replaced body. -/
theorem C5_final_disposition (transport : FetchRequest → DispatchRes)
    (cfg : ZFetcherConfig) (ep : String) (o : ZFetcherOptions) (r : Response)
    (finalBody : JVal) (evsP evsO evsS : List Ev)
    (hm : o.mockFn = none)
    (ht : transport (resolveCall cfg ep o).request = .resp r)
    (hprep : runPrepPhase cfg o = .next evsP ())
    (hoc : runOutcomePhase cfg o r (decodeBody r) = .next evsO finalBody)
    (hst : runSettledPhase cfg o = .next evsS ()) :
    fetcher transport cfg ep o =
      (if !r.ok && resolveThrowNotOk cfg o then .responseError r finalBody else .ok finalBody,
       evsP ++ [.fetchDispatch (resolveCall cfg ep o).request] ++ evsO ++ evsS) := by
  have hflag : (resolveCall cfg ep o).shouldThrowNotOk = resolveThrowNotOk cfg o := rfl
  simp [fetcher, runDispatch, dispatchEvOf, hm, ht, hprep, hoc, hst, hflag]
  split <;> rfl

/-- The 404 response of Scenario B. -/
def respB : Response := { status := 404, headers := [], jsonVal := .jnull, textVal := "nf" }

/-- The request object a default-configured GET dispatches. -/
def reqDefaultGET : FetchRequest :=
  { url := ""
    method := "GET"
    headers := []
    body := none
    extraOptions := configDefaultFetchOptions }

/-- Witness for C5: Scenario B — a 404 with default flags and no hooks
raises a ResponseError carrying the response and the decoded body. -/
theorem C5_final_disposition_witness :
    fetcher (fun _ => .resp respB) {} "" ({} : ZFetcherOptions) =
      (.responseError respB (.str "nf"), [.fetchDispatch reqDefaultGET]) :=
  C5_final_disposition (fun _ => .resp respB) {} "" {} respB (.str "nf") [] [] []
    rfl rfl rfl rfl rfl

/-- C4: when the dispatch (transport or mock supplier) throws, the
call-level error hook runs first and then the default error hook (here
both installed and the default enabled), each passed the raw failure; the
settled hooks run afterwards and before any return; if the call-level hook
returned a non-undefined value it is the result, else the default hook's
non-undefined value, and if both returned undefined the call raises a
NetworkError wrapping the original failure. -/
theorem C4_error_branch (transport : FetchRequest → DispatchRes)
    (cfg : ZFetcherConfig) (ep : String) (o : ZFetcherOptions) (err : JVal)
    (f g : Hook1) (fv gv : Option JVal) (evsP evsS : List Ev)
    (hd : runDispatch o transport (resolveCall cfg ep o).request = .thrown err)
    (hprep : runPrepPhase cfg o = .next evsP ())
    (hco : o.onError = some f) (hf : f err = .ret fv)
    (hdo : cfg.onError = some g) (hdis : o.disableDefaultOnError = false) (hg : g err = .ret gv)
    (hst : runSettledPhase cfg o = .next evsS ()) :
    fetcher transport cfg ep o =
      ((match fv with
        | some v => .ok v
        | none => match gv with
          | some v => .ok v
          | none => .networkError err),
       evsP ++ [dispatchEvOf o (resolveCall cfg ep o).request, .callError err, .defError err]
         ++ evsS) := by
  rcases fv with _ | v1 <;> rcases gv with _ | v2 <;>
    simp [fetcher, runErrorHook, hd, hprep, hco, hf, hdo, hdis, hg, hst]

/-- Call options for the C4 witness: a call-level error hook returning
undefined. -/
def optC4 : ZFetcherOptions := { onError := some (fun _ => .ret none) }

/-- Instance defaults for the C4 witness: a default error hook returning
undefined and a default settled hook. -/
def cfgC4 : ZFetcherConfig :=
  { onError := some (fun _ => .ret none), onSettled := some (fun _ => .ret none) }

/-- Witness for C4: Scenario D — the transport throws, both error hooks
return undefined, the settled hook runs, and the call raises a
NetworkError wrapping the original failure. -/
theorem C4_error_branch_witness :
    fetcher (fun _ => .thrown (.str "boom")) cfgC4 "" optC4 =
      (.networkError (.str "boom"),
       [.fetchDispatch reqDefaultGET,
        .callError (.str "boom"), .defError (.str "boom"), .defSettled]) :=
  C4_error_branch (fun _ => .thrown (.str "boom")) cfgC4 "" optC4 (.str "boom")
    _ _ none none [] [.defSettled] rfl rfl rfl rfl rfl rfl rfl rfl

/-! Counting settled-hook invocations in a trace, for claim C2. -/

/-- The number of occurrences of an event in a trace. -/
def countEv (e : Ev) (evs : List Ev) : Nat := (evs.filter (fun x => x == e)).length

/-- How many times the default settled hook should run in one call: once
when installed and not disabled. -/
def expectedDefSettled (cfg : ZFetcherConfig) (o : ZFetcherOptions) : Nat :=
  if cfg.onSettled.isSome && !o.disableDefaultOnSettled then 1 else 0

/-- How many times the call-level settled hook should run in one call:
once when provided. -/
def expectedCallSettled (o : ZFetcherOptions) : Nat :=
  if o.onSettled.isSome then 1 else 0

theorem countEv_append (e : Ev) (a b : List Ev) :
    countEv e (a ++ b) = countEv e a + countEv e b := by
  simp [countEv, List.filter_append]

theorem countEv_nil (e : Ev) : countEv e [] = 0 := rfl

theorem countEv_cons (e ev : Ev) (evs : List Ev) :
    countEv e (ev :: evs) = (if ev = e then 1 else 0) + countEv e evs := by
  rcases Decidable.em (ev = e) with h | h
  · subst h
    simp [countEv, List.filter, Nat.add_comm]
  · have hb : (ev == e) = false := by simp [h]
    simp [countEv, List.filter, hb, h]

theorem countEv_single_ne (e ev : Ev) (h : ¬ ev = e) : countEv e [ev] = 0 := by
  simp [countEv_cons, countEv_nil, h]

theorem runHook0_events (hk : Option Hook0) (en : Bool) (ev : Ev) :
    (runHook0 hk en ev).events = [] ∨ (runHook0 hk en ev).events = [ev] := by
  cases hk with
  | none => cases en <;> exact Or.inl rfl
  | some f =>
    cases en with
    | false => exact Or.inl rfl
    | true =>
      cases hf : f () with
      | ret v => exact Or.inr (by simp [runHook0, hf, Step.events])
      | thrown e => exact Or.inr (by simp [runHook0, hf, Step.events])

theorem runBodyHook_events (hk : Option Hook2) (en : Bool) (r : Response) (b : JVal)
    (ev : Ev) (cur : JVal) :
    (runBodyHook hk en r b ev cur).events = [] ∨ (runBodyHook hk en r b ev cur).events = [ev] := by
  cases hk with
  | none => cases en <;> exact Or.inl rfl
  | some f =>
    cases en with
    | false => exact Or.inl rfl
    | true =>
      cases hf : f r b with
      | ret v => cases v <;> exact Or.inr (by simp [runBodyHook, hf, Step.events])
      | thrown e => exact Or.inr (by simp [runBodyHook, hf, Step.events])

theorem runErrorHook_events (hk : Option Hook1) (en : Bool) (err : JVal) (ev : Ev) :
    (runErrorHook hk en err ev).events = [] ∨ (runErrorHook hk en err ev).events = [ev] := by
  cases hk with
  | none => cases en <;> exact Or.inl rfl
  | some f =>
    cases en with
    | false => exact Or.inl rfl
    | true =>
      cases hf : f err with
      | ret v => exact Or.inr (by simp [runErrorHook, hf, Step.events])
      | thrown e => exact Or.inr (by simp [runErrorHook, hf, Step.events])

theorem stepBind_events (s : Step α) (k : α → Step β) :
    (stepBind s k).events = s.events ∨ ∃ a, (stepBind s k).events = s.events ++ (k a).events := by
  cases s with
  | thrown evs e => exact Or.inl rfl
  | next evs a =>
    refine Or.inr ⟨a, ?_⟩
    cases hk : k a <;> simp [stepBind, hk, Step.events]

theorem countEv_settled_prep (cfg : ZFetcherConfig) (o : ZFetcherOptions) (e : Ev)
    (h1 : ¬ Ev.defPrep = e) (h2 : ¬ Ev.callPrep = e) :
    countEv e (runPrepPhase cfg o).events = 0 := by
  rcases stepBind_events (runHook0 cfg.onPrep (!o.disableDefaultOnPrep) Ev.defPrep)
      (fun _ => runHook0 o.onPrep true Ev.callPrep) with hs | ⟨a, hs⟩ <;>
    rcases runHook0_events cfg.onPrep (!o.disableDefaultOnPrep) Ev.defPrep with h3 | h3 <;>
    rcases runHook0_events o.onPrep true Ev.callPrep with h4 | h4 <;>
      simp [runPrepPhase, hs, h3, h4, countEv_cons, countEv_nil, h1, h2]

theorem prep_next_no_settled (cfg : ZFetcherConfig) (o : ZFetcherOptions) (evsP : List Ev) (u : Unit)
    (h : runPrepPhase cfg o = .next evsP u) :
    countEv Ev.defSettled evsP = 0 ∧ countEv Ev.callSettled evsP = 0 := by
  constructor
  · have := countEv_settled_prep cfg o Ev.defSettled (by simp) (by simp)
    rwa [h] at this
  · have := countEv_settled_prep cfg o Ev.callSettled (by simp) (by simp)
    rwa [h] at this

theorem countEv_settled_outcome (cfg : ZFetcherConfig) (o : ZFetcherOptions) (r : Response)
    (b : JVal) (e : Ev)
    (h1 : ∀ x y, ¬ Ev.defSuccess x y = e) (h2 : ∀ x y, ¬ Ev.callSuccess x y = e)
    (h3 : ∀ x y, ¬ Ev.defNotOk x y = e) (h4 : ∀ x y, ¬ Ev.callNotOk x y = e) :
    countEv e (runOutcomePhase cfg o r b).events = 0 := by
  cases hok : r.ok with
  | true =>
    rcases stepBind_events (runBodyHook cfg.onSuccess (!o.disableDefaultOnSuccess) r b
        (.defSuccess r b) b)
        (fun b1 => runBodyHook o.onSuccess true r b (.callSuccess r b) b1) with hs | ⟨a, hs⟩
    · rcases runBodyHook_events cfg.onSuccess (!o.disableDefaultOnSuccess) r b (.defSuccess r b) b
        with h5 | h5 <;>
        simp [runOutcomePhase, hok, hs, h5, countEv_cons, countEv_nil, h1 r b]
    · rcases runBodyHook_events cfg.onSuccess (!o.disableDefaultOnSuccess) r b (.defSuccess r b) b
        with h5 | h5 <;>
        rcases runBodyHook_events o.onSuccess true r b (.callSuccess r b) a with h6 | h6 <;>
          simp [runOutcomePhase, hok, hs, h5, h6, countEv_cons, countEv_nil, h1 r b, h2 r b]
  | false =>
    rcases stepBind_events (runBodyHook cfg.onNotOk (!o.disableDefaultOnNotOk) r b
        (.defNotOk r b) b)
        (fun b1 => runBodyHook o.onNotOk true r b (.callNotOk r b) b1) with hs | ⟨a, hs⟩
    · rcases runBodyHook_events cfg.onNotOk (!o.disableDefaultOnNotOk) r b (.defNotOk r b) b
        with h5 | h5 <;>
        simp [runOutcomePhase, hok, hs, h5, countEv_cons, countEv_nil, h3 r b]
    · rcases runBodyHook_events cfg.onNotOk (!o.disableDefaultOnNotOk) r b (.defNotOk r b) b
        with h5 | h5 <;>
        rcases runBodyHook_events o.onNotOk true r b (.callNotOk r b) a with h6 | h6 <;>
          simp [runOutcomePhase, hok, hs, h5, h6, countEv_cons, countEv_nil, h3 r b, h4 r b]

theorem outcome_next_no_settled (cfg : ZFetcherConfig) (o : ZFetcherOptions) (r : Response)
    (b : JVal) (evsO : List Ev) (fb : JVal)
    (h : runOutcomePhase cfg o r b = .next evsO fb) :
    countEv Ev.defSettled evsO = 0 ∧ countEv Ev.callSettled evsO = 0 := by
  constructor
  · have := countEv_settled_outcome cfg o r b Ev.defSettled (by simp) (by simp) (by simp) (by simp)
    rwa [h] at this
  · have := countEv_settled_outcome cfg o r b Ev.callSettled (by simp) (by simp) (by simp) (by simp)
    rwa [h] at this

theorem errorHook_next_no_settled (hk : Option Hook1) (en : Bool) (err : JVal) (ev : Ev)
    (evsE : List Ev) (ret : Option JVal)
    (hne1 : ¬ ev = Ev.defSettled) (hne2 : ¬ ev = Ev.callSettled)
    (h : runErrorHook hk en err ev = .next evsE ret) :
    countEv Ev.defSettled evsE = 0 ∧ countEv Ev.callSettled evsE = 0 := by
  rcases runErrorHook_events hk en err ev with hc | hc <;> rw [h] at hc <;>
    simp only [Step.events] at hc <;> subst hc <;>
      exact ⟨by simp [countEv_nil, countEv_single_ne, hne1],
             by simp [countEv_nil, countEv_single_ne, hne2]⟩

theorem dispatchEv_no_settled (o : ZFetcherOptions) (req : FetchRequest) :
    countEv Ev.defSettled [dispatchEvOf o req] = 0
    ∧ countEv Ev.callSettled [dispatchEvOf o req] = 0 := by
  cases hm : o.mockFn <;> constructor <;> simp [dispatchEvOf, hm, countEv_single_ne]

theorem runHook0_next_events (hk : Option Hook0) (en : Bool) (ev : Ev) (evs : List Ev) (u : Unit)
    (h : runHook0 hk en ev = .next evs u) :
    evs = if hk.isSome && en then [ev] else [] := by
  cases hk with
  | none => cases en <;> simp_all [runHook0]
  | some f =>
    cases en with
    | false => simp_all [runHook0]
    | true =>
      cases hf : f () with
      | ret v =>
        rw [runHook0, hf] at h
        injection h with h1 h2
        simp [h1.symm]
      | thrown e =>
        rw [runHook0, hf] at h
        exact Step.noConfusion h

theorem runSettledPhase_next (cfg : ZFetcherConfig) (o : ZFetcherOptions) (evs : List Ev) (u : Unit)
    (h : runSettledPhase cfg o = .next evs u) :
    countEv Ev.defSettled evs = expectedDefSettled cfg o
    ∧ countEv Ev.callSettled evs = expectedCallSettled o := by
  unfold runSettledPhase stepBind at h
  rcases hA : runHook0 cfg.onSettled (!o.disableDefaultOnSettled) Ev.defSettled
    with ⟨evs1, u1⟩ | ⟨evs1, e1⟩ <;> rw [hA] at h
  · rcases hB : runHook0 o.onSettled true Ev.callSettled
      with ⟨evs2, u2⟩ | ⟨evs2, e2⟩ <;> rw [hB] at h
    · injection h with h1 h2
      subst h1
      have e1eq := runHook0_next_events cfg.onSettled (!o.disableDefaultOnSettled)
        Ev.defSettled evs1 u1 hA
      have e2eq := runHook0_next_events o.onSettled true Ev.callSettled evs2 u2 hB
      subst e1eq
      subst e2eq
      constructor <;>
        rcases hs1 : cfg.onSettled.isSome <;> rcases hs2 : o.disableDefaultOnSettled <;>
          rcases hs3 : o.onSettled.isSome <;>
            simp [expectedDefSettled, expectedCallSettled, hs1, hs2, hs3,
              countEv_append, countEv_cons, countEv_nil]
    · exact Step.noConfusion h
  · exact Step.noConfusion h

theorem dispatchEvOf_ne_def (o : ZFetcherOptions) (req : FetchRequest) :
    ¬ dispatchEvOf o req = Ev.defSettled := by
  cases hm : o.mockFn <;> simp [dispatchEvOf, hm]

theorem dispatchEvOf_ne_call (o : ZFetcherOptions) (req : FetchRequest) :
    ¬ dispatchEvOf o req = Ev.callSettled := by
  cases hm : o.mockFn <;> simp [dispatchEvOf, hm]

/-- Instance defaults for the C2 counterexample: a settled hook is
installed, and the default success hook throws. -/
def cfgC2 : ZFetcherConfig :=
  { onSettled := some (fun _ => .ret none)
    onSuccess := some (fun _ _ => .thrown (.str "boom")) }

/-- C2: counterexample.  The call terminates (by an uncaught throw out of
the success hook) but the installed, enabled settled hook never ran: the
outcome-branch hooks on zfetcher.ts lines 189-216 are not guarded by any
try/finally, so a success-hook throw skips lines 218-219 entirely. -/
theorem C2_counterexample :
    (fetcher (fun _ => .resp respC3) cfgC2 "" ({} : ZFetcherOptions)).1 = .hookThrow (.str "boom")
    ∧ countEv Ev.defSettled (fetcher (fun _ => .resp respC3) cfgC2 "" {}).2 = 0
    ∧ cfgC2.onSettled.isSome = true ∧ ({} : ZFetcherOptions).disableDefaultOnSettled = false :=
  ⟨rfl, rfl, rfl, rfl⟩

/-- C2 as amended: on every terminating execution whose outcome is not an
uncaught hook throw — i.e. on the success, not-ok and transport-error
branches, including the ones where error hooks supply replacement values —
the default settled hook (unless disabled) and the call-level settled hook
each run exactly once; an execution in which a prep, success, not-ok,
error or settled hook throws propagates that throw and runs no further
settled hook. -/
theorem C2_settled_once_unless_hook_throws (transport : FetchRequest → DispatchRes)
    (cfg : ZFetcherConfig) (ep : String) (o : ZFetcherOptions)
    (h : (fetcher transport cfg ep o).1.isHookThrow = false) :
    countEv Ev.defSettled (fetcher transport cfg ep o).2 = expectedDefSettled cfg o
    ∧ countEv Ev.callSettled (fetcher transport cfg ep o).2 = expectedCallSettled o := by
  generalize hfet : fetcher transport cfg ep o = pr at h ⊢
  obtain ⟨out, evs⟩ := pr
  simp only [fetcher] at hfet
  rcases hprep : runPrepPhase cfg o with ⟨evsP, u⟩ | ⟨evsP, e0⟩ <;>
      simp only [hprep] at hfet
  · obtain ⟨hP1, hP2⟩ := prep_next_no_settled cfg o evsP u hprep
    rcases hdis : runDispatch o transport (resolveCall cfg ep o).request with ⟨r⟩ | ⟨err⟩ <;>
        simp only [hdis] at hfet
    · rcases hoc : runOutcomePhase cfg o r (decodeBody r) with ⟨evsO, fb⟩ | ⟨evsO, e1⟩ <;>
          simp only [hoc] at hfet
      · obtain ⟨hO1, hO2⟩ := outcome_next_no_settled cfg o r (decodeBody r) evsO fb hoc
        rcases hset : runSettledPhase cfg o with ⟨evsS, u2⟩ | ⟨evsS, e2⟩ <;>
            simp only [hset] at hfet
        · obtain ⟨hS1, hS2⟩ := runSettledPhase_next cfg o evsS u2 hset
          rcases hcond : (!r.ok && (resolveCall cfg ep o).shouldThrowNotOk) with _ | _ <;>
              simp only [hcond, if_true, if_false] at hfet <;>
            · injection hfet with h1 h2
              subst h1
              subst h2
              constructor <;>
                simp [countEv_append, countEv_cons, countEv_nil, hP1, hP2, hO1, hO2, hS1, hS2,
                  dispatchEvOf_ne_def, dispatchEvOf_ne_call]
        · injection hfet with h1 h2
          subst h1
          simp [FetchOutcome.isHookThrow] at h
      · injection hfet with h1 h2
        subst h1
        simp [FetchOutcome.isHookThrow] at h
    · rcases he1 : runErrorHook o.onError true err (Ev.callError err)
        with ⟨evsE1, ret1⟩ | ⟨evsE1, e1⟩ <;> simp only [he1] at hfet
      · obtain ⟨hE1a, hE1b⟩ := errorHook_next_no_settled o.onError true err (Ev.callError err)
          evsE1 ret1 (by simp) (by simp) he1
        rcases he2 : runErrorHook cfg.onError (!o.disableDefaultOnError) err (Ev.defError err)
          with ⟨evsE2, ret2⟩ | ⟨evsE2, e2⟩ <;> simp only [he2] at hfet
        · obtain ⟨hE2a, hE2b⟩ := errorHook_next_no_settled cfg.onError (!o.disableDefaultOnError)
            err (Ev.defError err) evsE2 ret2 (by simp) (by simp) he2
          rcases hset : runSettledPhase cfg o with ⟨evsS, u2⟩ | ⟨evsS, e3⟩ <;>
              simp only [hset] at hfet
          · obtain ⟨hS1, hS2⟩ := runSettledPhase_next cfg o evsS u2 hset
            rcases ret1 with _ | v1 <;> rcases ret2 with _ | v2 <;> dsimp only at hfet <;>
              · injection hfet with h1 h2
                subst h1
                subst h2
                constructor <;>
                  simp [countEv_append, countEv_cons, countEv_nil, hP1, hP2, hE1a, hE1b,
                    hE2a, hE2b, hS1, hS2, dispatchEvOf_ne_def, dispatchEvOf_ne_call]
          · injection hfet with h1 h2
            subst h1
            simp [FetchOutcome.isHookThrow] at h
        · injection hfet with h1 h2
          subst h1
          simp [FetchOutcome.isHookThrow] at h
      · injection hfet with h1 h2
        subst h1
        simp [FetchOutcome.isHookThrow] at h
  · injection hfet with h1 h2
    subst h1
    simp [FetchOutcome.isHookThrow] at h

/-- Instance defaults for the C2 witness: settled and error hooks
installed. -/
def cfgC2w : ZFetcherConfig :=
  { onSettled := some (fun _ => .ret none)
    onError := some (fun _ => .ret none) }

/-- Call options for the C2 witness: a call-level settled hook. -/
def optC2w : ZFetcherOptions := { onSettled := some (fun _ => .ret none) }

/-- Witness for C2's amended statement: a transport failure with no
replacement value still runs the default and the call-level settled hook
exactly once each. -/
theorem C2_settled_once_witness :
    countEv Ev.defSettled
        (fetcher (fun _ => .thrown (.str "boom")) cfgC2w "" optC2w).2 = 1
    ∧ countEv Ev.callSettled
        (fetcher (fun _ => .thrown (.str "boom")) cfgC2w "" optC2w).2 = 1 :=
  C2_settled_once_unless_hook_throws (fun _ => .thrown (.str "boom")) cfgC2w "" optC2w rfl

end ZF
